import Mathlib

/-!
Shallow embedding of the frontend domain entities of the argilla repository
(`src/frontend/v1/domain/entities/metadata/Metadata.ts`, which holds both the
`Metadata` and the `Record` class) and of the Cloud Run deployment step of the
deploy workflow, together with theorems settling the specification claims.

JavaScript objects are modelled as Lean structures; `cloneDeep` followed by
`isEqual` is modelled by structural copying and decidable equality on values;
`null`/`undefined` fields become `Option` (with a three-valued `JsNum` where
the code distinguishes `null` from `undefined` via a strict `!== null` test).
-/

namespace Argilla

/-- A JavaScript number-valued optional field, distinguishing `null` from
`undefined`: the code tests `!== null` strictly, which `undefined` passes. -/
inductive JsNum where
  | null : JsNum
  | undef : JsNum
  | num : Int → JsNum
deriving DecidableEq, Repr

/-- The `MetadataSettings` interface: a type tag, optional values list,
optional min and max bounds. -/
structure MetadataSettings where
  type : String
  values : Option (List String)
  min : JsNum
  max : JsNum
deriving DecidableEq, Repr

/-- The `Metadata` entity. -/
structure Metadata where
  id : String
  name : String
  title : String
  settings : MetadataSettings
deriving DecidableEq, Repr

/-- `get isTerms` of `Metadata`. -/
def Metadata.isTerms (m : Metadata) : Bool :=
  m.settings.type == "terms"

/-- `get isInteger` of `Metadata`. -/
def Metadata.isInteger (m : Metadata) : Bool :=
  m.settings.type == "integer"

/-- `get isFloat` of `Metadata`. -/
def Metadata.isFloat (m : Metadata) : Bool :=
  m.settings.type == "float"

/-- `get hasValues` of `Metadata`: for terms it is `values?.length > 0`
(false when `values` is absent), otherwise `max !== null && min !== null`. -/
def Metadata.hasValues (m : Metadata) : Bool :=
  if m.isTerms then
    match m.settings.values with
    | some vs => decide (0 < vs.length)
    | none => false
  else
    decide (m.settings.max ≠ JsNum.null) && decide (m.settings.min ≠ JsNum.null)

/-- The claim's version of `hasValues`, written from the spec's words for
comparison with the source definition: true iff (terms and values non-empty)
or (type is numeric, i.e. integer or float, and both bounds non-null). -/
def hasValuesClaimed (m : Metadata) : Bool :=
  (m.isTerms &&
    (match m.settings.values with
     | some vs => decide (0 < vs.length)
     | none => false))
  || ((m.isInteger || m.isFloat) &&
      decide (m.settings.min ≠ JsNum.null) && decide (m.settings.max ≠ JsNum.null))

/-- A metadata whose settings type is neither terms nor numeric but whose
bounds are both non-null: the source getter answers true here. -/
def c1Metadata : Metadata :=
  ⟨"m1", "other", "Other", ⟨"date", none, JsNum.num 0, JsNum.num 1⟩⟩

/-- C1 fails as stated: for a settings type that is neither `"terms"` nor
numeric, the code still returns the bounds check, so `hasValues` is true while
the claimed characterisation is false. -/
theorem c1_counterexample :
    c1Metadata.hasValues = true ∧ hasValuesClaimed c1Metadata = false := by
  decide

/-- C1 (amended): `hasValues` is true iff the settings type is `"terms"` and
the values list is present and non-empty, or the settings type is not
`"terms"` and both the min and max bounds are non-null. -/
theorem c1_amended (m : Metadata) :
    m.hasValues = true ↔
      ((m.isTerms = true ∧ ∃ vs, m.settings.values = some vs ∧ 0 < vs.length) ∨
       (m.isTerms = false ∧
        m.settings.min ≠ JsNum.null ∧ m.settings.max ≠ JsNum.null)) := by
  obtain ⟨i, n, t, ty, values, mn, mx⟩ := m
  cases values with
  | none =>
    by_cases hty : ty = "terms" <;>
      simp [Metadata.hasValues, Metadata.isTerms, hty, and_assoc, and_comm]
  | some vs =>
    by_cases hty : ty = "terms" <;>
      simp [Metadata.hasValues, Metadata.isTerms, hty, and_assoc, and_comm]

/-- A `Suggestion`: the `Record` code only reads its `questionId`; the rest
of its payload is a value of the answer-value type `V`. -/
structure Suggestion (V : Type) where
  questionId : String
  value : V
deriving DecidableEq, Repr

/-- Modelled from the spec: `RecordAnswer.ts` is not under `src/`; the
glossary fixes the annotation lifecycle states of an answer to pending,
submitted, discarded, draft. -/
inductive AnswerStatus where
  | pending
  | submitted
  | discarded
  | draft
deriving DecidableEq, Repr

/-- The string the server-side status renders to, as compared by the
`Record` getters. -/
def AnswerStatus.asString : AnswerStatus → String
  | .pending => "pending"
  | .submitted => "submitted"
  | .discarded => "discarded"
  | .draft => "draft"

/-- A `RecordAnswer`: a status, a value object mapping question names to
answer values (a JavaScript object, modelled as an association list), and an
optional update timestamp. -/
structure RecordAnswer (V : Type) where
  status : AnswerStatus
  value : List (String × V)
  updatedAt : Option String
deriving DecidableEq, Repr

/-- JavaScript property access `obj[key]` on the answer's value object:
the first binding for the key, `undefined` (none) when absent. -/
def lookupValue {V : Type} (vals : List (String × V)) (k : String) : Option V :=
  (vals.find? (fun p => p.1 == k)).map Prod.snd

/-- The operations and observations the `Record` code invokes on a
`Question`. `Question.ts` is not under `src/`, so the embedding is parametric
in the question state type `Q` and in these operations; theorems about
`Record` hold for every choice of them. -/
structure QuestionOps (Q V : Type) where
  name : Q → String
  qid : Q → String
  complete : Q → Option V → Q
  suggests : Q → Option (Suggestion V) → Q
  forceComplete : Q → Option V → Q
  clearAnswer : Q → Q
  isRequired : Q → Bool
  isAnswered : Q → Bool
  hasValidValues : Q → Bool

/-- The data fields of a `Record` other than the private `original` snapshot:
exactly what the destructuring `const { original, ...rest } = this` collects,
and what `cloneDeep`/`isEqual` copy and compare. -/
structure RecordState (Q V : Type) where
  id : String
  datasetId : String
  questions : List Q
  fields : List String
  answer : Option (RecordAnswer V)
  suggestions : List (Suggestion V)
  page : Nat
  updatedAt : Option String
deriving DecidableEq, Repr

/-- `get status`: `this.answer?.status ?? "pending"`. -/
def RecordState.status {Q V : Type} (s : RecordState Q V) : String :=
  match s.answer with
  | some a => a.status.asString
  | none => "pending"

/-- `completeQuestion` applied to one question: the answer value is looked up
by question name in the answer's value object; for a pending or draft record
the question is completed and given the suggestion found by question id,
otherwise it is force-completed. -/
def rehydrateQuestion {Q V : Type} (ops : QuestionOps Q V) (s : RecordState Q V)
    (q : Q) : Q :=
  let answerForQuestion := s.answer.bind (fun a => lookupValue a.value (ops.name q))
  if s.status == "pending" || s.status == "draft" then
    ops.suggests (ops.complete q answerForQuestion)
      (s.suggestions.find? (fun sg => sg.questionId == ops.qid q))
  else
    ops.forceComplete q answerForQuestion

/-- `private completeQuestion()`: maps the rehydration over `this.questions`
(each question object is mutated in place; no other field is touched, and the
per-question rehydration reads only the answer, status and suggestions). -/
def completeQuestion {Q V : Type} (ops : QuestionOps Q V) (s : RecordState Q V) :
    RecordState Q V :=
  { s with questions := s.questions.map (rehydrateQuestion ops s) }

/-- A `Record`: its data fields plus the private `original` snapshot, which
is `undefined` (none) until `initialize()` first runs. -/
structure Record (Q V : Type) where
  state : RecordState Q V
  original : Option (RecordState Q V)
deriving DecidableEq, Repr

/-- The `Record` constructor: stores the fields, runs `completeQuestion()`,
then sets `updatedAt = answer?.updatedAt`. It does not set `original`. -/
def Record.make {Q V : Type} (ops : QuestionOps Q V) (id datasetId : String)
    (questions : List Q) (fields : List String) (answer : Option (RecordAnswer V))
    (suggestions : List (Suggestion V)) (page : Nat) : Record Q V :=
  let s0 : RecordState Q V :=
    ⟨id, datasetId, questions, fields, answer, suggestions, page, none⟩
  { state := { completeQuestion ops s0 with updatedAt := answer.bind (·.updatedAt) }
    original := none }

/-- `get status` on the record. -/
def Record.status {Q V : Type} (r : Record Q V) : String :=
  r.state.status

/-- `get isPending`. -/
def Record.isPending {Q V : Type} (r : Record Q V) : Bool :=
  r.status == "pending"

/-- `get isSubmitted`. -/
def Record.isSubmitted {Q V : Type} (r : Record Q V) : Bool :=
  r.status == "submitted"

/-- `get isDiscarded`. -/
def Record.isDiscarded {Q V : Type} (r : Record Q V) : Bool :=
  r.status == "discarded"

/-- `get isDraft`. -/
def Record.isDraft {Q V : Type} (r : Record Q V) : Bool :=
  r.status == "draft"

/-- `get isModified`: `!!original && !isEqual(original, rest)`, with
`isEqual` as structural equality of the data fields. -/
def Record.isModified {Q V : Type} [DecidableEq Q] [DecidableEq V]
    (r : Record Q V) : Bool :=
  match r.original with
  | none => false
  | some o => decide (o ≠ r.state)

/-- `initialize()`: runs `completeQuestion()`, then stores a deep clone of
the data fields as `original` (a `cloneDeep` of a value yields a structurally
equal value). -/
def Record.initSnapshot {Q V : Type} (ops : QuestionOps Q V) (r : Record Q V) :
    Record Q V :=
  let s := completeQuestion ops r.state
  { state := s, original := some s }

/-- `submit(answer)`: sets the answer and `updatedAt`, then `initialize()`. -/
def Record.submit {Q V : Type} (ops : QuestionOps Q V) (r : Record Q V)
    (a : RecordAnswer V) : Record Q V :=
  Record.initSnapshot ops
    { r with state := { r.state with answer := some a, updatedAt := a.updatedAt } }

/-- `discard(answer)`: sets the answer and `updatedAt`, then `initialize()`. -/
def Record.discard {Q V : Type} (ops : QuestionOps Q V) (r : Record Q V)
    (a : RecordAnswer V) : Record Q V :=
  Record.initSnapshot ops
    { r with state := { r.state with answer := some a, updatedAt := a.updatedAt } }

/-- `clear()`: calls `clearAnswer` on every question, sets the answer to
null, then `initialize()`. -/
def Record.clear {Q V : Type} (ops : QuestionOps Q V) (r : Record Q V) :
    Record Q V :=
  Record.initSnapshot ops
    { r with
      state := { r.state with
                  questions := r.state.questions.map ops.clearAnswer
                  answer := none } }

/-- `questionAreCompletedCorrectly()`: every required question is answered
and every non-required question has valid values. -/
def Record.questionAreCompletedCorrectly {Q V : Type} (ops : QuestionOps Q V)
    (r : Record Q V) : Bool :=
  (r.state.questions.filter ops.isRequired).all ops.isAnswered &&
  (r.state.questions.filter (fun q => !ops.isRequired q)).all ops.hasValidValues

/-- A concrete question state used to instantiate the parametric theorems on
explicit inputs: a question with an id, a name, an optional answer value, an
optional attached suggestion and a required flag. -/
structure SimpleQuestion where
  qid : String
  name : String
  ansValue : Option String
  sugg : Option (Suggestion String)
  required : Bool
deriving DecidableEq, Repr

/-- A concrete choice of question operations for `SimpleQuestion`:
completing stores the value, suggesting stores the suggestion, clearing
erases the value. -/
def simpleOps : QuestionOps SimpleQuestion String where
  name q := q.name
  qid q := q.qid
  complete q v := { q with ansValue := v }
  suggests q s := { q with sugg := s }
  forceComplete q v := { q with ansValue := v }
  clearAnswer q := { q with ansValue := none }
  isRequired q := q.required
  isAnswered q := q.ansValue.isSome
  hasValidValues q := q.ansValue != some ""

theorem initSnapshot_isModified {Q V : Type} [DecidableEq Q] [DecidableEq V]
    (ops : QuestionOps Q V) (r : Record Q V) :
    (r.initSnapshot ops).isModified = false := by
  simp [Record.initSnapshot, Record.isModified]

/-- C2: `isModified` is false immediately after construction (the snapshot is
still undefined) and immediately after `submit`, `discard` or `clear` returns
(each ends in `initialize()`, which re-snapshots). -/
theorem c2_isModified_false_after_lifecycle {Q V : Type} [DecidableEq Q]
    [DecidableEq V] (ops : QuestionOps Q V) (id datasetId : String)
    (questions : List Q) (fields : List String) (answer : Option (RecordAnswer V))
    (suggestions : List (Suggestion V)) (page : Nat) (r : Record Q V)
    (a a' : RecordAnswer V) :
    (Record.make ops id datasetId questions fields answer suggestions page).isModified
        = false ∧
    (r.submit ops a).isModified = false ∧
    (r.discard ops a').isModified = false ∧
    (r.clear ops).isModified = false := by
  refine ⟨?_, ?_, ?_, ?_⟩
  · simp [Record.make, Record.isModified]
  · simp [Record.submit, initSnapshot_isModified]
  · simp [Record.discard, initSnapshot_isModified]
  · simp [Record.clear, initSnapshot_isModified]

/-- C4: a record whose answer is null or undefined has status `"pending"`
and `isPending` true. -/
theorem c4_status_defaults_to_pending {Q V : Type} (r : Record Q V)
    (h : r.state.answer = none) :
    r.status = "pending" ∧ r.isPending = true := by
  constructor
  · simp [Record.status, RecordState.status, h]
  · simp [Record.isPending, Record.status, RecordState.status, h]

/-- C4 witness: a freshly constructed record with no answer. -/
theorem c4_witness :
    (Record.make simpleOps "r1" "d1" [] [] none [] 1).status = "pending" ∧
    (Record.make simpleOps "r1" "d1" [] [] none [] 1).isPending = true :=
  c4_status_defaults_to_pending (Record.make simpleOps "r1" "d1" [] [] none [] 1) rfl

/-- C5: the status is always one of pending, submitted, discarded, draft; it
is the answer's status when an answer is present and `"pending"` otherwise;
and exactly one of the four status predicates is true. -/
theorem c5_status_exactly_one {Q V : Type} (r : Record Q V) :
    (r.status = "pending" ∨ r.status = "submitted" ∨ r.status = "discarded" ∨
      r.status = "draft") ∧
    (∀ a, r.state.answer = some a → r.status = a.status.asString) ∧
    (r.state.answer = none → r.status = "pending") ∧
    [r.isPending, r.isSubmitted, r.isDiscarded, r.isDraft].count true = 1 := by
  refine ⟨?_, ?_, ?_, ?_⟩
  · cases ha : r.state.answer with
    | none => left; simp [Record.status, RecordState.status, ha]
    | some a =>
      cases hs : a.status <;>
        simp [Record.status, RecordState.status, ha, hs, AnswerStatus.asString]
  · intro a ha
    simp [Record.status, RecordState.status, ha]
  · intro ha
    simp [Record.status, RecordState.status, ha]
  · cases ha : r.state.answer with
    | none =>
      simp [Record.isPending, Record.isSubmitted, Record.isDiscarded, Record.isDraft,
            Record.status, RecordState.status, ha, List.count]
    | some a =>
      cases hs : a.status <;>
        simp [Record.isPending, Record.isSubmitted, Record.isDiscarded, Record.isDraft,
              Record.status, RecordState.status, ha, hs, AnswerStatus.asString,
              List.count]

/-- C5 witness: the exactly-one-status property evaluated on a concrete
submitted record. -/
theorem c5_witness :
    (Record.make simpleOps "r1" "d1" [] []
        (some ⟨AnswerStatus.submitted, [], some "t"⟩) [] 1).status = "submitted" :=
  (c5_status_exactly_one
      (Record.make simpleOps "r1" "d1" [] []
        (some ⟨AnswerStatus.submitted, [], some "t"⟩) [] 1)).2.1
    ⟨AnswerStatus.submitted, [], some "t"⟩ rfl

/-- An in-place change of the question at index `i` (for instance its answer
changed through the UI), with no other field of the record touched. -/
def Record.withQuestionAt {Q V : Type} (r : Record Q V) (i : Nat) (q' : Q) :
    Record Q V :=
  { r with state := { r.state with questions := r.state.questions.set i q' } }

theorem list_set_ne {α : Type} (xs : List α) (i : Nat) (q' : α)
    (h : i < xs.length) (hne : xs.get ⟨i, h⟩ ≠ q') : xs.set i q' ≠ xs := by
  intro heq
  have h1 : (xs.set i q')[i]? = some q' := List.getElem?_set_eq_of_lt q' h
  rw [heq, List.getElem?_eq_getElem h] at h1
  exact hne (by simpa [List.get_eq_getElem] using h1)

/-- C3 (amended): once `initialize()` has stored a snapshot, changing any
question (with no intervening submit/discard/clear/initialize) makes
`isModified` true; but on a record on which only the constructor has run the
snapshot is still undefined, so `isModified` stays false regardless of
changes. -/
theorem c3_isModified_after_change {Q V : Type} [DecidableEq Q] [DecidableEq V]
    (r : Record Q V) (i : Nat) (q' : Q)
    (hsnap : r.original = some r.state)
    (hi : i < r.state.questions.length)
    (hne : r.state.questions.get ⟨i, hi⟩ ≠ q') :
    (r.withQuestionAt i q').isModified = true ∧
    ∀ (r0 : Record Q V), r0.original = none → r0.isModified = false := by
  constructor
  · have hqs := list_set_ne r.state.questions i q' hi hne
    have hstate : r.state ≠ (r.withQuestionAt i q').state := by
      intro he
      exact hqs (congrArg RecordState.questions he).symm
    simp only [Record.isModified, Record.withQuestionAt, hsnap]
    exact decide_eq_true hstate
  · intro r0 h0
    simp [Record.isModified, h0]

/-- A question before any answer. -/
def c3Question : SimpleQuestion := ⟨"q1", "quality", none, none, true⟩

/-- A record on which only the constructor has run. -/
def c3Record : Record SimpleQuestion String :=
  Record.make simpleOps "r1" "d1" [c3Question] [] none [] 1

/-- C3 fails as stated: the constructor never stores a snapshot, so after a
question's answer changes on a freshly constructed record, `isModified` is
still false. -/
theorem c3_counterexample :
    (c3Record.withQuestionAt 0
        { c3Question with ansValue := some "good" }).state.questions
      ≠ c3Record.state.questions ∧
    (c3Record.withQuestionAt 0
        { c3Question with ansValue := some "good" }).isModified = false := by
  decide

/-- C3 witness: after an explicit `initialize()`, changing the question's
answer makes `isModified` true. -/
theorem c3_witness :
    ((c3Record.initSnapshot simpleOps).withQuestionAt 0
        { c3Question with ansValue := some "good" }).isModified = true :=
  (c3_isModified_after_change (c3Record.initSnapshot simpleOps) 0
      { c3Question with ansValue := some "good" } rfl (by decide) (by decide)).1

/-- C6: `submit` and `discard` set the answer and `updatedAt` from the given
answer, store the new state as the snapshot, and leave id, datasetId, fields
and page unchanged. -/
theorem c6_submit_discard_frame {Q V : Type} (ops : QuestionOps Q V)
    (r : Record Q V) (a : RecordAnswer V) :
    ((r.submit ops a).state.answer = some a ∧
     (r.submit ops a).state.updatedAt = a.updatedAt ∧
     (r.submit ops a).original = some (r.submit ops a).state ∧
     (r.submit ops a).state.id = r.state.id ∧
     (r.submit ops a).state.datasetId = r.state.datasetId ∧
     (r.submit ops a).state.fields = r.state.fields ∧
     (r.submit ops a).state.page = r.state.page) ∧
    ((r.discard ops a).state.answer = some a ∧
     (r.discard ops a).state.updatedAt = a.updatedAt ∧
     (r.discard ops a).original = some (r.discard ops a).state ∧
     (r.discard ops a).state.id = r.state.id ∧
     (r.discard ops a).state.datasetId = r.state.datasetId ∧
     (r.discard ops a).state.fields = r.state.fields ∧
     (r.discard ops a).state.page = r.state.page) :=
  ⟨⟨rfl, rfl, rfl, rfl, rfl, rfl, rfl⟩, ⟨rfl, rfl, rfl, rfl, rfl, rfl, rfl⟩⟩

/-- C7 (amended): on every construction and on every `initialize()`, each
question is rehydrated with the answer value looked up by question name; when
the record is pending or draft the question is completed and then given the
suggestion found by question id, while for a submitted or discarded record it
is only force-completed and no suggestion is applied. -/
theorem c7_rehydration {Q V : Type} (ops : QuestionOps Q V) (id datasetId : String)
    (questions : List Q) (fields : List String) (answer : Option (RecordAnswer V))
    (suggestions : List (Suggestion V)) (page : Nat) (r : Record Q V) :
    ((Record.make ops id datasetId questions fields answer suggestions page).state.questions
      = questions.map (fun q =>
          let v := answer.bind (fun a => lookupValue a.value (ops.name q))
          let st := match answer with
            | some a => a.status.asString
            | none => "pending"
          if st == "pending" || st == "draft" then
            ops.suggests (ops.complete q v)
              (suggestions.find? (fun sg => sg.questionId == ops.qid q))
          else
            ops.forceComplete q v)) ∧
    ((r.initSnapshot ops).state.questions
      = r.state.questions.map (fun q =>
          let v := r.state.answer.bind (fun a => lookupValue a.value (ops.name q))
          if r.state.status == "pending" || r.state.status == "draft" then
            ops.suggests (ops.complete q v)
              (r.state.suggestions.find? (fun sg => sg.questionId == ops.qid q))
          else
            ops.forceComplete q v)) :=
  ⟨rfl, rfl⟩

/-- A question with no answer yet. -/
def c7Question : SimpleQuestion := ⟨"q1", "quality", none, none, true⟩

/-- A suggestion whose `questionId` matches `c7Question`. -/
def c7Suggestion : Suggestion String := ⟨"q1", "good"⟩

/-- A submitted answer carrying a value for `c7Question`. -/
def c7Answer : RecordAnswer String :=
  ⟨AnswerStatus.submitted, [("quality", "bad")], some "t1"⟩

/-- A record constructed with the submitted answer and the matching
suggestion. -/
def c7Record : Record SimpleQuestion String :=
  Record.make simpleOps "r1" "d1" [c7Question] [] (some c7Answer) [c7Suggestion] 1

/-- C7 fails as stated: for a submitted record the constructor only
force-completes each question and never applies the suggestion, although a
suggestion matching the question's id is present in the suggestions list. -/
theorem c7_counterexample :
    ([c7Suggestion].find? (fun sg => sg.questionId == simpleOps.qid c7Question)
        = some c7Suggestion) ∧
    c7Record.state.questions ≠
      [c7Question].map (fun q =>
        simpleOps.suggests
          (simpleOps.complete q (lookupValue c7Answer.value (simpleOps.name q)))
          ([c7Suggestion].find? (fun sg => sg.questionId == simpleOps.qid q))) := by
  decide

/-- C9: after `clear()`, the answer is null, the status is `"pending"` with
`isPending` true, and the questions list is the original one with
`clearAnswer` applied to every question (followed by the pending rehydration
that the trailing `initialize()` performs with the now-null answer). -/
theorem c9_clear_resets {Q V : Type} (ops : QuestionOps Q V) (r : Record Q V) :
    (r.clear ops).state.answer = none ∧
    (r.clear ops).status = "pending" ∧
    (r.clear ops).isPending = true ∧
    (r.clear ops).state.questions
      = (r.state.questions.map ops.clearAnswer).map
          (rehydrateQuestion ops
            { r.state with
                questions := r.state.questions.map ops.clearAnswer
                answer := none }) :=
  ⟨rfl, rfl, rfl, rfl⟩

/-- C10: `questionAreCompletedCorrectly()` is true iff every required
question is answered and every non-required question has valid values; in
particular it is true when the questions list is empty. -/
theorem c10_completed_correctly {Q V : Type} (ops : QuestionOps Q V)
    (r : Record Q V) :
    (r.questionAreCompletedCorrectly ops = true ↔
      ∀ q ∈ r.state.questions,
        (ops.isRequired q = true → ops.isAnswered q = true) ∧
        (ops.isRequired q = false → ops.hasValidValues q = true)) ∧
    (r.state.questions = [] → r.questionAreCompletedCorrectly ops = true) := by
  constructor
  · unfold Record.questionAreCompletedCorrectly
    simp only [Bool.and_eq_true, List.all_eq_true, List.mem_filter, and_imp]
    constructor
    · rintro ⟨h1, h2⟩ q hq
      exact ⟨fun hreq => h1 q hq hreq, fun hreq => h2 q hq (by simp [hreq])⟩
    · intro h
      exact ⟨fun q hq hreq => (h q hq).1 hreq,
             fun q hq hreq => (h q hq).2 (by simpa using hreq)⟩
  · intro h
    simp [Record.questionAreCompletedCorrectly, h]

/-- C10 witness: a record with an empty questions list is completed
correctly. -/
theorem c10_witness :
    (Record.make simpleOps "r1" "d1" [] [] none [] 1).questionAreCompletedCorrectly
        simpleOps = true :=
  (c10_completed_correctly simpleOps
      (Record.make simpleOps "r1" "d1" [] [] none [] 1)).2 rfl

/-- The credentials generated by the workflow's generate-credentials step. -/
inductive CredentialRef where
  | owner
  | admin
  | annotator
deriving DecidableEq, Repr

/-- A value assigned to an environment variable of the deployed service:
either one of the generated credentials or a literal string. -/
inductive EnvValue where
  | cred : CredentialRef → EnvValue
  | lit : String → EnvValue
deriving DecidableEq, Repr

/-- The `flags` line of the `Deploy in Cloud Run` step of the deploy
workflow. -/
def deployCloudRunFlags : List String :=
  ["--min-instances=1", "--max-instances=1", "--port=6900", "--cpu=2000m",
   "--memory=2048Mi", "--no-cpu-throttling", "--allow-unauthenticated"]

/-- The `env_vars` block of the `Deploy in Cloud Run` step of the deploy
workflow. -/
def deployCloudRunEnvVars : List (String × EnvValue) :=
  [("OWNER_PASSWORD", .cred .owner), ("OWNER_API_KEY", .cred .owner),
   ("ADMIN_PASSWORD", .cred .admin), ("ADMIN_API_KEY", .cred .admin),
   ("ANNOTATOR_PASSWORD", .cred .annotator), ("ANNOTATOR_API_KEY", .cred .annotator),
   ("ARGILLA_ENABLE_TELEMETRY", .lit "0")]

/-- C8: the Cloud Run step passes the five fixed flags and injects each
generated credential as both the PASSWORD and the API_KEY environment
variable of its role. -/
theorem c8_deploy_flags_and_env :
    ("--min-instances=1" ∈ deployCloudRunFlags ∧
     "--max-instances=1" ∈ deployCloudRunFlags ∧
     "--port=6900" ∈ deployCloudRunFlags ∧
     "--cpu=2000m" ∈ deployCloudRunFlags ∧
     "--memory=2048Mi" ∈ deployCloudRunFlags) ∧
    (lookupValue deployCloudRunEnvVars "OWNER_PASSWORD" = some (.cred .owner) ∧
     lookupValue deployCloudRunEnvVars "OWNER_API_KEY" = some (.cred .owner) ∧
     lookupValue deployCloudRunEnvVars "ADMIN_PASSWORD" = some (.cred .admin) ∧
     lookupValue deployCloudRunEnvVars "ADMIN_API_KEY" = some (.cred .admin) ∧
     lookupValue deployCloudRunEnvVars "ANNOTATOR_PASSWORD" = some (.cred .annotator) ∧
     lookupValue deployCloudRunEnvVars "ANNOTATOR_API_KEY" = some (.cred .annotator)) := by
  decide

end Argilla
